import Mathlib

/-!
Shallow embedding of the session recorder/analyzer of the Dubhacks-2025
front end (practice page, `src/unnamed/part_002`, together with
`app/components/questions.tsx` and `app/utils/audioAPI.ts`).

Modelling conventions:
* A recorded audio fragment (a `Blob` chunk) is its byte sequence, `List Nat`;
  `event.data.size` is the list length, and `Blob` concatenation is `List.join`.
* The React component state (the `useState`/`useRef` cells of the `Practice`
  component) is one record, `SessionState`.  Each handler of the source is a
  function on that record; the `await` points of the async handlers split them
  into explicit phases, sequenced exactly as in the source.
* Remote calls (`transcribeAudio`, `summarizeTranscript`) and the capture
  device are external collaborators: their outcomes are parameters
  (`FetchResult`, `DeviceResult`, the delivered fragments).
* JS numbers are modelled as exact rationals `ℚ`.
-/

/-- Byte sequence of one audio fragment delivered by `ondataavailable`. -/
abbrev Frag : Type := List Nat

/-- Concatenated audio object (`new Blob(chunks)`): the bytes in order. -/
abbrev AudioBlob : Type := List Nat

/-- Response shape of `POST /api/summarize` (`AnalysisResponse` in the source). -/
structure AnalysisResponse where
  main_points : List String
  feedback : List String
  metrics : Option (List (String × String))
deriving DecidableEq, Repr

/-- HUD state per frame (`FaceStatus` in the source). -/
structure FaceStatus where
  emotion : String
  confidence : ℚ
  top3 : List (String × ℚ)
  leftOpen : ℚ
  rightOpen : ℚ
deriving DecidableEq, Repr

/-- The `FaceStatus` value used for "no face detected" and for resets:
`{ emotion: "—", confidence: 0, top3: [], leftOpen: 0, rightOpen: 0 }`. -/
def blankFaceStatus : FaceStatus :=
  { emotion := "—", confidence := 0, top3 := [], leftOpen := 0, rightOpen := 0 }

/-- State of the `MediaRecorder` (`mediaRecorderRef.current.state`). -/
inductive RecorderPhase where
  | recording
  | pausedPhase
  | inactive
deriving DecidableEq, Repr

/-- The mutable state of the `Practice` component: every `useState` cell and
the `useRef` cells that carry data (`chunksRef` mirrors the `chunks` state and
is the one read at stop, so one field models both).  `tracksLive` is true while
the tracks of `streamRef.current` have not been stopped; `rafActive` is true
while the `requestAnimationFrame` face loop is scheduled. -/
structure SessionState where
  isRecording : Bool
  isPaused : Bool
  isRecordingComplete : Bool
  chunks : List Frag
  transcript : String
  loading : Bool
  analysis : Option AnalysisResponse
  analysisLoading : Bool
  faceStatus : FaceStatus
  recorder : Option RecorderPhase
  tracksLive : Bool
  rafActive : Bool
deriving DecidableEq, Repr

/-- Initial component state (the `useState` initial values; all refs null). -/
def initialState : SessionState :=
  { isRecording := false
    isPaused := false
    isRecordingComplete := false
    chunks := []
    transcript := "this is the og transcript"
    loading := false
    analysis := none
    analysisLoading := false
    faceStatus := blankFaceStatus
    recorder := none
    tracksLive := false
    rafActive := false }

/-- Outcome of an awaited remote call. -/
inductive FetchResult (α : Type) where
  | ok (v : α)
  | err
deriving DecidableEq, Repr

/-- Outcome of `navigator.mediaDevices.getUserMedia`: resolves with a stream
or rejects (permission denied / no device). -/
inductive DeviceResult where
  | granted
  | denied
deriving DecidableEq, Repr

/-- The `ondataavailable` handler: appends the delivered fragment to the chunk
list only when `event.data.size > 0`. -/
def ondataavailable (chunks : List Frag) (data : Frag) : List Frag :=
  if data.length > 0 then chunks ++ [data] else chunks

/-- The `startRecording` handler.  The state resets run before the `await` of
`getUserMedia`; there is no `catch`, so when the device is denied the promise
rejects and nothing after the `await` runs — the pre-set flags remain. -/
def startRecording (s : SessionState) (dev : DeviceResult) : SessionState :=
  let s1 : SessionState :=
    { s with
      isRecording := true
      isRecordingComplete := false
      isPaused := false
      chunks := []
      transcript := ""
      analysis := none
      analysisLoading := false }
  match dev with
  | .denied => s1
  | .granted =>
      { s1 with
        tracksLive := true
        rafActive := true
        recorder := some .recording }

/-- The `pauseRecording` handler: toggles pause/resume on the recorder based
on the `isPaused` flag; returns unchanged when no recorder exists. -/
def pauseRecording (s : SessionState) : SessionState :=
  match s.recorder with
  | none => s
  | some _ =>
      if s.isPaused then
        { s with recorder := some .recording, isPaused := false }
      else
        { s with recorder := some .pausedPhase, isPaused := true }

/-- Delivery of one fragment by the capture device (fires the
`ondataavailable` handler). -/
def deliver (s : SessionState) (data : Frag) : SessionState :=
  { s with chunks := ondataavailable s.chunks data }

/-- The `rerecord` handler: stops the recorder and the face loop, stops all
stream tracks, and resets the recording flags, chunk list, transcript and face
status.  It does not touch `analysis` or `isRecordingComplete`. -/
def rerecord (s : SessionState) : SessionState :=
  { s with
    recorder := s.recorder.map fun _ => .inactive
    rafActive := false
    tracksLive := false
    isRecording := false
    isPaused := false
    chunks := []
    transcript := ""
    faceStatus := blankFaceStatus }

/-- Environment events during an active recording session: a fragment
delivery from the capture device, or a press of the pause/resume button. -/
inductive CapEvent where
  | data (d : Frag)
  | pauseBtn
deriving DecidableEq, Repr

/-- Runs a sequence of capture events on the session state. -/
def runCapture (s : SessionState) : List CapEvent → SessionState
  | [] => s
  | .data d :: rest => runCapture (deliver s d) rest
  | .pauseBtn :: rest => runCapture (pauseRecording s) rest

/-- The fragments delivered by the device, in delivery order. -/
def capturedData (es : List CapEvent) : List Frag :=
  es.filterMap fun e =>
    match e with
    | .data d => some d
    | .pauseBtn => none

/-- Observable events of the `stopRecording` handler, in program order:
the final `dataavailable` flush, the `stop` event of the recorder, stopping the
face loop and the stream tracks, the two remote calls, the state updates that
show results, and the `alert` dialog. -/
inductive Ev where
  | finalData (f : Frag)
  | recorderStopped
  | faceLoopStopped
  | tracksStopped
  | callTranscribe (blob : AudioBlob)
  | setTranscript (t : String)
  | callSummarize (t : String)
  | setAnalysis (a : AnalysisResponse)
  | alertMsg (m : String)
deriving DecidableEq, Repr

/-- First phase of `stopRecording`, up to and including issuing the
transcription call: sets `isRecording := false` and
`isRecordingComplete := true`; when the recorder is not inactive, calls
`mr.stop()` and awaits the `stop` event, so the final `dataavailable` (with
the flushed fragment `f`) runs through `ondataavailable` first; then stops the
face loop and the stream tracks, builds the blob from the chunk list, sets
`loading := true` and calls `transcribeAudio`. -/
def stopPhaseA (s : SessionState) (f : Frag) : SessionState × List Ev :=
  let s1 : SessionState := { s with isRecording := false, isRecordingComplete := true }
  let flushed : SessionState × List Ev :=
    match s1.recorder with
    | some ph =>
        if ph ≠ RecorderPhase.inactive then
          ({ s1 with chunks := ondataavailable s1.chunks f, recorder := some .inactive },
            [Ev.finalData f, Ev.recorderStopped])
        else (s1, [])
    | none => (s1, [])
  let s2 : SessionState := { flushed.1 with rafActive := false, tracksLive := false }
  let blob : AudioBlob := s2.chunks.flatten
  ({ s2 with loading := true },
    flushed.2 ++ [Ev.faceLoopStopped, Ev.tracksStopped, Ev.callTranscribe blob])

/-- Second phase of `stopRecording`: the resolution of the transcription
call.  On success it sets the transcript, clears `loading`, resets
`analysis` to null, sets `analysisLoading := true` and issues the
summarization call with the received transcript.  On failure it shows the
`alert` and clears `loading`; no summarization call is made. -/
def stopPhaseB (s : SessionState) (tr : FetchResult String) :
    SessionState × List Ev :=
  match tr with
  | .ok t =>
      ({ s with transcript := t, loading := false, analysis := none, analysisLoading := true },
        [Ev.setTranscript t, Ev.callSummarize t])
  | .err =>
      ({ s with loading := false }, [Ev.alertMsg "Service busy; please retry."])

/-- Third phase of `stopRecording`: the resolution of the summarization call,
which only runs when the transcription call succeeded.  On success it stores
the analysis; the `finally` clears `analysisLoading` on both paths. -/
def stopPhaseC (s : SessionState) (tr : FetchResult String)
    (sm : FetchResult AnalysisResponse) : SessionState × List Ev :=
  match tr with
  | .err => (s, [])
  | .ok _ =>
      match sm with
      | .ok a =>
          ({ s with analysis := some a, analysisLoading := false }, [Ev.setAnalysis a])
      | .err => ({ s with analysisLoading := false }, [])

/-- The whole `stopRecording` handler: the three phases in program order,
parameterised by the fragment the recorder flushes at stop and the outcomes
of the two remote calls.  Returns the final state and the event trace. -/
def stopRecording (s : SessionState) (f : Frag) (tr : FetchResult String)
    (sm : FetchResult AnalysisResponse) : SessionState × List Ev :=
  let a := stopPhaseA s f
  let b := stopPhaseB a.1 tr
  let c := stopPhaseC b.1 tr sm
  (c.1, a.2 ++ b.2 ++ c.2)

/-- The blob handed to the transcription call, read off the event trace. -/
def transcribedBlob (evs : List Ev) : Option AudioBlob :=
  (evs.filterMap fun e =>
    match e with
    | .callTranscribe b => some b
    | _ => none).head?

/-- Event `a` occurs at a strictly earlier position than event `b` in the
trace. -/
def beforeIn (evs : List Ev) (a b : Ev) : Prop :=
  ∃ i j, i < j ∧ evs.get? i = some a ∧ evs.get? j = some b

/-- The three mutually exclusive screens of the `Practice` component, as
guarded in the JSX: `!isRecording && !isRecordingComplete` shows the idle
question-selection screen, `isRecording && !isRecordingComplete` shows the
camera with the Pause/Stop/Rerecord controls, and `isRecordingComplete` shows
the transcript-and-analytics results screen. -/
inductive Screen where
  | idleScreen
  | recordingScreen
  | completeScreen
deriving DecidableEq, Repr

/-- Which screen the component renders for a state. -/
def renderScreen (s : SessionState) : Screen :=
  if s.isRecordingComplete then .completeScreen
  else if s.isRecording then .recordingScreen
  else .idleScreen

/-- Whether the Pause/Stop/Rerecord recording controls are rendered
(the `isRecording && !isRecordingComplete` JSX guard). -/
def recordingControlsShown (s : SessionState) : Bool :=
  s.isRecording && !s.isRecordingComplete

/-- Content of the transcript panel on the results screen:
`loading ? "Loading transcript..." : (transcript ? transcript : placeholder)`. -/
inductive TranscriptPanel where
  | loadingMsg
  | text (t : String)
  | placeholder
deriving DecidableEq, Repr

/-- Renders the transcript panel from the state. -/
def transcriptPanel (s : SessionState) : TranscriptPanel :=
  if s.loading then .loadingMsg
  else if s.transcript ≠ "" then .text s.transcript
  else .placeholder

/-- Content of the analytics panel on the results screen:
`analysisLoading ? "Analyzing..." : (analysis ? results : "No analysis yet.")`. -/
inductive AnalyticsPanel where
  | analyzing
  | results (a : AnalysisResponse)
  | noAnalysis
deriving DecidableEq, Repr

/-- Renders the analytics panel from the state. -/
def analyticsPanel (s : SessionState) : AnalyticsPanel :=
  if s.analysisLoading then .analyzing
  else
    match s.analysis with
    | some a => .results a
    | none => .noAnalysis

/-- A 2D landmark point (normalized coordinates), as used by the overlay and
eye-openness helpers. -/
structure Point where
  x : ℚ
  y : ℚ
deriving DecidableEq, Repr

instance : Inhabited Point := ⟨⟨0, 0⟩⟩

/-- The part of the external `FaceLandmarkerResult` the reducer reads:
`faceLandmarks` (one list of points per detected face) and `faceBlendshapes`
(one list of `{categoryName, score}` categories per detected face). -/
structure FaceResult where
  faceLandmarks : List (List Point)
  faceBlendshapes : List (List (String × ℚ))
deriving DecidableEq, Repr

/-- The `toBlendshapeMap` helper: builds the record `m` by iterating over the
categories, later entries overwriting earlier ones; lookup of an absent key is
`undefined` (`none`). -/
def toBlendshapeMap (cats : List (String × ℚ)) : String → Option ℚ :=
  cats.foldl (fun m c => fun k => if k = c.1 then some c.2 else m k) (fun _ => none)

/-- The `num` helper: `typeof v === "number" ? v : 0`. -/
def num (v : Option ℚ) : ℚ := v.getD 0

/-- The `avg` helper: `(num(a) + num(b)) / 2`. -/
def avg (a b : Option ℚ) : ℚ := (num a + num b) / 2

/-- The `clamp` helper: `Math.max(lo, Math.min(hi, n))`. -/
def clamp (n lo hi : ℚ) : ℚ := max lo (min hi n)

/-- The `round2` helper: `Math.round(n * 100) / 100` (JS `Math.round` is
`⌊x + 1/2⌋`, which is the Mathlib `round`). -/
def round2 (n : ℚ) : ℚ := (round (n * 100) : ℤ) / 100

/-- The `emotionScores` heuristic: fixed weighted linear combinations of
blend-shape scores, each clamped to `[0,1]`.  The returned record is modelled
as the association list in the insertion order of the source (the order
`Object.entries` yields). -/
def emotionScores (b : String → Option ℚ) : List (String × ℚ) :=
  let smile := avg (b "mouthSmileLeft") (b "mouthSmileRight")
  let frown := avg (b "mouthFrownLeft") (b "mouthFrownRight")
  let press := avg (b "mouthPressLeft") (b "mouthPressRight")
  let stretch := avg (b "mouthStretchLeft") (b "mouthStretchRight")
  let upperLipRaise := avg (b "mouthUpperUpLeft") (b "mouthUpperUpRight")
  let cheekPuff := num (b "cheekPuff")
  let jawOpen := num (b "jawOpen")
  let eyeWide := avg (b "eyeWideLeft") (b "eyeWideRight")
  let browUp := max (num (b "browInnerUp"))
    (max (num (b "browOuterUpLeft")) (num (b "browOuterUpRight")))
  let browDown := avg (some (num (b "browDownLeft"))) (some (num (b "browDownRight")))
  let noseSneer := avg (some (num (b "noseSneerLeft"))) (some (num (b "noseSneerRight")))
  let lipSuck := avg (some (num (b "mouthRollUpper"))) (some (num (b "mouthRollLower")))
  let posValence := clamp (0.8 * smile + 0.2 * cheekPuff) 0 1
  let negValence := clamp (0.6 * frown + 0.4 * press) 0 1
  let arousal := clamp (0.5 * jawOpen + 0.5 * eyeWide + 0.4 * browUp) 0 1
  let valenceMag := |posValence - negValence|
  [("happy", clamp (0.9 * smile + 0.2 * browUp - 0.2 * frown) 0 1),
    ("surprised", clamp (0.6 * jawOpen + 0.5 * browUp + 0.4 * eyeWide) 0 1),
    ("sad", clamp (0.7 * frown + 0.4 * lipSuck + 0.3 * browDown - 0.2 * smile) 0 1),
    ("angry", clamp (0.6 * browDown + 0.4 * press + 0.3 * noseSneer + 0.2 * stretch) 0 1),
    ("disgust", clamp (0.7 * noseSneer + 0.5 * upperLipRaise + 0.2 * browDown) 0 1),
    ("fear", clamp (0.5 * eyeWide + 0.4 * browUp + 0.3 * jawOpen + 0.2 * lipSuck) 0 1),
    ("confused", clamp (0.6 * browUp + 0.4 * stretch + 0.3 * press - 0.2 * smile) 0 1),
    ("neutral", clamp (1 - clamp (0.6 * arousal + 0.6 * valenceMag) 0 1) 0 1)]

/-- The `dist2D` helper, `Math.hypot(a.x - b.x, a.y - b.y)`.  `Math.hypot` is
a call into the external JS math library; it is modelled as an abstract
parameter `hyp`, so every theorem below holds for every interpretation of it
(in particular for the intended square root). -/
def dist2D (hyp : ℚ → ℚ → ℚ) (a b : Point) : ℚ :=
  hyp (a.x - b.x) (a.y - b.y)

/-- The `openness` helper: eyelid vertical distance over eye width (guarded
by `+ 1e-6`), scaled by 2 and clamped to `[0,1]`.  Out-of-range landmark
indices never occur for the 478-point output of the detector; `getD` keeps the
access total. -/
def openness (hyp : ℚ → ℚ → ℚ) (pts : List Point)
    (top bot left right : ℕ) : ℚ :=
  let dy := dist2D hyp (pts.getD top default) (pts.getD bot default)
  let w := dist2D hyp (pts.getD left default) (pts.getD right default) + 1 / 1000000
  clamp (dy / w * 2.0) 0 1

/-- The `eyeOpenFromLandmarks` helper: openness of each eye from the fixed
landmark indices, or `(0, 0)` when no face landmarks are present. -/
def eyeOpenFromLandmarks (hyp : ℚ → ℚ → ℚ) (res : Option FaceResult) : ℚ × ℚ :=
  match res.bind fun r => r.faceLandmarks.head? with
  | none => (0, 0)
  | some pts =>
      (openness hyp pts 159 145 33 133, openness hyp pts 386 374 362 263)

/-- One step of the `loop` body in `startFaceLoop` (the per-frame face-status
reducer): when the frame has blend-shapes, sorts the emotion scores by
descending score (`Object.entries(scores).sort((a, b) => b[1] - a[1])`, a
stable sort), keeps the first three, and builds the `FaceStatus` sample;
otherwise resets the HUD to the blank status. -/
def frameFaceStatus (res : Option FaceResult) (hyp : ℚ → ℚ → ℚ) : FaceStatus :=
  match res.bind fun r => r.faceBlendshapes.head? with
  | none => blankFaceStatus
  | some cats =>
      let b := toBlendshapeMap cats
      let scores := emotionScores b
      let eo := eyeOpenFromLandmarks hyp res
      let sorted := (scores.mergeSort fun p q => decide (q.2 ≤ p.2)).take 3
      { emotion := (sorted.head?.map Prod.fst).getD "neutral"
        confidence := (sorted.head?.map Prod.snd).getD 0
        top3 := sorted
        leftOpen := round2 eo.1
        rightOpen := round2 eo.2 }

/-- The `randomizeQuestion` mutation of the prompt selector:
`QUESTIONS[Math.floor(Math.random() * QUESTIONS.length)]`, with the draw
`r = Math.random()` in `[0,1)` as a parameter. -/
def randomizeQuestion (questions : List String) (r : ℚ) : String :=
  questions.getD (⌊r * questions.length⌋).toNat ""

/-! Helper lemmas about the capture run. -/

theorem pauseRecording_chunks (s : SessionState) :
    (pauseRecording s).chunks = s.chunks := by
  unfold pauseRecording
  cases s.recorder <;> simp <;> split <;> rfl

theorem runCapture_chunks (es : List CapEvent) (s : SessionState) :
    (runCapture s es).chunks
      = s.chunks ++ (capturedData es).filter (fun d => decide (d.length > 0)) := by
  induction es generalizing s with
  | nil => simp [runCapture, capturedData]
  | cons e rest ih =>
      cases e with
      | data d =>
          rw [runCapture, ih]
          simp only [capturedData, List.filterMap_cons]
          by_cases hd : d.length > 0
          · simp [deliver, ondataavailable, hd, capturedData]
          · simp [deliver, ondataavailable, hd, capturedData]
      | pauseBtn =>
          rw [runCapture, ih, pauseRecording_chunks]
          simp [capturedData]

theorem pauseRecording_recorder_active (s : SessionState) (ph : RecorderPhase)
    (h1 : s.recorder = some ph) :
    ∃ ph2, (pauseRecording s).recorder = some ph2 ∧ ph2 ≠ RecorderPhase.inactive := by
  unfold pauseRecording
  rw [h1]
  by_cases hp : s.isPaused <;> simp [hp]

theorem runCapture_recorder_active (es : List CapEvent) (s : SessionState)
    (h : ∃ ph, s.recorder = some ph ∧ ph ≠ RecorderPhase.inactive) :
    ∃ ph, (runCapture s es).recorder = some ph ∧ ph ≠ RecorderPhase.inactive := by
  induction es generalizing s with
  | nil => exact h
  | cons e rest ih =>
      cases e with
      | data d =>
          exact ih (deliver s d) (by simpa [deliver] using h)
      | pauseBtn =>
          obtain ⟨ph, hph, _⟩ := h
          obtain ⟨ph2, h2, hne⟩ := pauseRecording_recorder_active s ph hph
          exact ih (pauseRecording s) ⟨ph2, h2, hne⟩

theorem pauseRecording_fields (s : SessionState) :
    (pauseRecording s).transcript = s.transcript
    ∧ (pauseRecording s).analysis = s.analysis
    ∧ (pauseRecording s).isRecordingComplete = s.isRecordingComplete
    ∧ (pauseRecording s).loading = s.loading
    ∧ (pauseRecording s).analysisLoading = s.analysisLoading := by
  unfold pauseRecording
  cases s.recorder <;> simp <;> split <;> simp

theorem runCapture_fields (es : List CapEvent) (s : SessionState) :
    (runCapture s es).transcript = s.transcript
    ∧ (runCapture s es).analysis = s.analysis
    ∧ (runCapture s es).isRecordingComplete = s.isRecordingComplete
    ∧ (runCapture s es).loading = s.loading
    ∧ (runCapture s es).analysisLoading = s.analysisLoading := by
  induction es generalizing s with
  | nil => simp [runCapture]
  | cons e rest ih =>
      cases e with
      | data d =>
          simpa [deliver] using ih (deliver s d)
      | pauseBtn =>
          have hf := pauseRecording_fields s
          have hr := ih (pauseRecording s)
          rw [runCapture]
          exact ⟨hr.1.trans hf.1, hr.2.1.trans hf.2.1, hr.2.2.1.trans hf.2.2.1,
            hr.2.2.2.1.trans hf.2.2.2.1, hr.2.2.2.2.trans hf.2.2.2.2⟩

theorem flatten_ondataavailable (c : List Frag) (f : Frag) :
    (ondataavailable c f).flatten = c.flatten ++ f := by
  unfold ondataavailable
  by_cases h : f.length > 0
  · simp [h]
  · have hf : f = [] := by
      cases f with
      | nil => rfl
      | cons a l => simp at h
    simp [h, hf]

theorem flatten_filter_pos (l : List Frag) :
    (l.filter fun d => decide (d.length > 0)).flatten = l.flatten := by
  induction l with
  | nil => rfl
  | cons d rest ih =>
      by_cases h : d.length > 0
      · simp [List.filter_cons, h, ih]
      · have hd : d = [] := by
          cases d with
          | nil => rfl
          | cons a l => simp at h
        simp [List.filter_cons, h, hd, ih]

theorem stopPhaseA_active (s : SessionState) (f : Frag) (ph : RecorderPhase)
    (h1 : s.recorder = some ph) (h2 : ph ≠ RecorderPhase.inactive) :
    stopPhaseA s f =
      ({ s with isRecording := false, isRecordingComplete := true,
                chunks := ondataavailable s.chunks f, recorder := some .inactive,
                rafActive := false, tracksLive := false, loading := true },
        [Ev.finalData f, Ev.recorderStopped, Ev.faceLoopStopped, Ev.tracksStopped,
          Ev.callTranscribe (ondataavailable s.chunks f).flatten]) := by
  unfold stopPhaseA
  simp [h1, h2]

/-- C1.  For every pause/resume/delivery interleaving of a started recording
session and every fragment flushed at stop, the blob handed to the
transcription call is the in-order concatenation of every fragment the device
delivered before stop plus the final flushed fragment, and the final
`dataavailable` flush happens before the blob is passed to the transcription
call (the `stop` event is awaited): nothing captured is excluded from or
duplicated in the audio object. -/
theorem C1_stop_blob_is_full_concat (s0 : SessionState) (es : List CapEvent)
    (f : Frag) (tr : FetchResult String) (sm : FetchResult AnalysisResponse) :
    transcribedBlob (stopRecording (runCapture (startRecording s0 .granted) es) f tr sm).2
      = some ((capturedData es ++ [f]).flatten)
    ∧ beforeIn (stopRecording (runCapture (startRecording s0 .granted) es) f tr sm).2
        (Ev.finalData f) (Ev.callTranscribe ((capturedData es ++ [f]).flatten)) := by
  set s := runCapture (startRecording s0 .granted) es with hs
  obtain ⟨ph, hph, hne⟩ := runCapture_recorder_active es (startRecording s0 .granted)
    ⟨.recording, by simp [startRecording], by simp⟩
  have hchunks : s.chunks = (capturedData es).filter (fun d => decide (d.length > 0)) := by
    rw [hs, runCapture_chunks]
    simp [startRecording]
  have hblob : (ondataavailable s.chunks f).flatten = (capturedData es ++ [f]).flatten := by
    rw [flatten_ondataavailable, hchunks, flatten_filter_pos]
    simp
  have hA := stopPhaseA_active s f ph hph hne
  constructor
  · unfold stopRecording
    rw [hA]
    cases tr with
    | ok t =>
        cases sm with
        | ok a => simp [stopPhaseB, stopPhaseC, transcribedBlob, hblob]
        | err => simp [stopPhaseB, stopPhaseC, transcribedBlob, hblob]
    | err => simp [stopPhaseB, stopPhaseC, transcribedBlob, hblob]
  · unfold stopRecording
    rw [hA]
    refine ⟨0, 4, by norm_num, ?_, ?_⟩
    · rfl
    · show (([Ev.finalData f, Ev.recorderStopped, Ev.faceLoopStopped, Ev.tracksStopped,
        Ev.callTranscribe (ondataavailable s.chunks f).flatten] ++ _).get? 4) = _
      rw [hblob]
      rfl

/-- C10.  Fragments of size zero delivered by the capture device are silently
discarded by the `ondataavailable` handler: after any delivery/pause/resume
interleaving of a started session, the recorded chunk sequence is exactly the
subsequence of non-empty delivered fragments in delivery order, and the
concatenated audio equals the concatenation of all delivered fragments. -/
theorem C10_chunks_are_nonempty_fragments (s0 : SessionState) (es : List CapEvent) :
    (runCapture (startRecording s0 .granted) es).chunks
      = (capturedData es).filter (fun d => decide (d.length > 0))
    ∧ (runCapture (startRecording s0 .granted) es).chunks.flatten
      = (capturedData es).flatten := by
  have h : (runCapture (startRecording s0 .granted) es).chunks
      = (capturedData es).filter (fun d => decide (d.length > 0)) := by
    rw [runCapture_chunks]
    simp [startRecording]
  exact ⟨h, by rw [h, flatten_filter_pos]⟩

theorem stopPhaseA_shape (s : SessionState) (f : Frag) :
    (stopPhaseA s f).1.isRecordingComplete = true
    ∧ (stopPhaseA s f).1.isRecording = false
    ∧ (stopPhaseA s f).1.transcript = s.transcript
    ∧ (stopPhaseA s f).1.analysis = s.analysis
    ∧ (∀ m, Ev.alertMsg m ∉ (stopPhaseA s f).2)
    ∧ (∀ t, Ev.callSummarize t ∉ (stopPhaseA s f).2)
    ∧ (∀ t, Ev.setTranscript t ∉ (stopPhaseA s f).2) := by
  unfold stopPhaseA
  cases hrec : s.recorder with
  | none => simp [hrec]
  | some ph =>
      by_cases h : ph = RecorderPhase.inactive <;> simp [hrec, h]

theorem beforeIn_append_cons_cons (pre post : List Ev) (a b : Ev) :
    beforeIn (pre ++ a :: b :: post) a b := by
  refine ⟨pre.length, pre.length + 1, by omega, ?_, ?_⟩
  · rw [List.get?_append_right (le_refl _)]
    simp
  · rw [List.get?_append_right (by omega)]
    have : pre.length + 1 - pre.length = 1 := by omega
    rw [this]
    rfl

/-- C2 counterexample.  Concrete run: a session is started, one fragment is
captured, and the transcription call fails (HTTP 500).  The claim says the UI
state after the failure is equivalent to `Idle` and not the Complete/results
state; but `stopRecording` sets `isRecordingComplete := true` before the call,
so the component renders the results screen, not the idle screen. -/
theorem C2_counterexample_results_screen_after_failure :
    renderScreen (stopRecording (runCapture (startRecording initialState .granted)
        [CapEvent.data [1]]) [2] .err .err).1 = Screen.completeScreen
    ∧ renderScreen (stopRecording (runCapture (startRecording initialState .granted)
        [CapEvent.data [1]]) [2] .err .err).1 ≠ Screen.idleScreen := by
  decide

/-- C2 (amended).  When the transcription call returns a non-success status
on a started session, the user is shown the "Service busy; please retry."
notice, no partial transcript is kept (the transcript stays empty), no
analysis is set, and loading is cleared so a wholly new recording can be
started from the rendered screen; however the component renders the
Complete/results screen (with placeholder text), not an Idle-equivalent
screen. -/
theorem C2_transcription_failure_keeps_no_transcript (s0 : SessionState)
    (es : List CapEvent) (f : Frag) (sm : FetchResult AnalysisResponse) :
    Ev.alertMsg "Service busy; please retry."
        ∈ (stopRecording (runCapture (startRecording s0 .granted) es) f .err sm).2
    ∧ (stopRecording (runCapture (startRecording s0 .granted) es) f .err sm).1.transcript = ""
    ∧ (stopRecording (runCapture (startRecording s0 .granted) es) f .err sm).1.analysis = none
    ∧ (stopRecording (runCapture (startRecording s0 .granted) es) f .err sm).1.loading = false
    ∧ renderScreen (stopRecording (runCapture (startRecording s0 .granted) es) f .err sm).1
        = Screen.completeScreen := by
  set s := runCapture (startRecording s0 .granted) es with hs
  have hfields := runCapture_fields es (startRecording s0 .granted)
  have ht : s.transcript = "" := by
    rw [hs, hfields.1]
    simp [startRecording]
  have han : s.analysis = none := by
    rw [hs, hfields.2.1]
    simp [startRecording]
  have hA := stopPhaseA_shape s f
  refine ⟨?_, ?_, ?_, ?_, ?_⟩
  · unfold stopRecording
    simp [stopPhaseB, stopPhaseC]
  · unfold stopRecording
    simpa [stopPhaseB, stopPhaseC, hA.2.2.1] using ht
  · unfold stopRecording
    simpa [stopPhaseB, stopPhaseC, hA.2.2.2.1] using han
  · unfold stopRecording
    simp [stopPhaseB, stopPhaseC]
  · unfold stopRecording
    simp [stopPhaseB, stopPhaseC, renderScreen, hA.1]

/-- C3.  Failing input for the claim: the user clicks Start Recording on the
idle screen and `getUserMedia` rejects (permission denied / no device).  The
claim (and the spec) require the session to remain `Idle`, with no recording
controls and a visible message; but `startRecording` sets
`isRecording := true` before awaiting the device and has no `catch`, so the
component renders the recording screen with the Pause/Stop/Rerecord controls
and surfaces nothing. -/
theorem C3_denied_start_leaves_recording_screen :
    renderScreen (startRecording initialState .denied) = Screen.recordingScreen
    ∧ recordingControlsShown (startRecording initialState .denied) = true
    ∧ renderScreen (startRecording initialState .denied) ≠ Screen.idleScreen := by
  decide

/-- C4.  Whenever transcription succeeded with transcript `t` and the
subsequent summarization call throws, the failure is recovered locally: the
transcript stays `t` and is displayed (for non-empty `t`), the analysis stays
empty, the analytics panel shows the "No analysis yet." placeholder, the
results screen stays up, and no `alert` dialog is raised anywhere in the
handler. -/
theorem C4_summarization_failure_recovered_locally (s : SessionState) (f : Frag)
    (t : String) :
    (stopRecording s f (.ok t) .err).1.transcript = t
    ∧ (stopRecording s f (.ok t) .err).1.analysis = none
    ∧ (stopRecording s f (.ok t) .err).1.analysisLoading = false
    ∧ analyticsPanel (stopRecording s f (.ok t) .err).1 = AnalyticsPanel.noAnalysis
    ∧ renderScreen (stopRecording s f (.ok t) .err).1 = Screen.completeScreen
    ∧ (stopRecording s f (.ok t) .err).1.loading = false
    ∧ (∀ m, Ev.alertMsg m ∉ (stopRecording s f (.ok t) .err).2)
    ∧ (t ≠ "" → transcriptPanel (stopRecording s f (.ok t) .err).1 = TranscriptPanel.text t) := by
  have hA := stopPhaseA_shape s f
  refine ⟨?_, ?_, ?_, ?_, ?_, ?_, ?_, ?_⟩
  · unfold stopRecording
    simp [stopPhaseB, stopPhaseC]
  · unfold stopRecording
    simp [stopPhaseB, stopPhaseC]
  · unfold stopRecording
    simp [stopPhaseB, stopPhaseC]
  · unfold stopRecording
    simp [stopPhaseB, stopPhaseC, analyticsPanel]
  · unfold stopRecording
    simp [stopPhaseB, stopPhaseC, renderScreen, hA.1]
  · unfold stopRecording
    simp [stopPhaseB, stopPhaseC]
  · intro m
    unfold stopRecording
    simp [stopPhaseB, stopPhaseC, hA.2.2.2.2.1 m]
  · intro hne
    unfold stopRecording
    simp [stopPhaseB, stopPhaseC, transcriptPanel, hne]

/-- C4 witness: the theorem applied at a concrete successful transcription
"hello" followed by a failing summarization. -/
theorem C4_witness :
    analyticsPanel (stopRecording initialState [1] (.ok "hello") .err).1
        = AnalyticsPanel.noAnalysis
    ∧ transcriptPanel (stopRecording initialState [1] (.ok "hello") .err).1
        = TranscriptPanel.text "hello" := by
  have h := C4_summarization_failure_recovered_locally initialState [1] "hello"
  exact ⟨h.2.2.2.1, h.2.2.2.2.2.2.2 (by decide)⟩

/-- C5 counterexample.  A non-`Idle` state on which rerecord does not produce
the claimed result: the Complete state reached by a full successful session
(results screen, analysis set).  `rerecord` leaves `isRecordingComplete` and
`analysis` untouched, so the result still renders the results screen and
still holds the analysis — not the claimed `Idle` state with empty analysis. -/
theorem C5_counterexample_rerecord_from_complete :
    renderScreen (stopRecording (runCapture (startRecording initialState .granted)
        [CapEvent.data [1]]) [2] (.ok "hi") (.ok ⟨["p"], ["f"], none⟩)).1
      ≠ Screen.idleScreen
    ∧ renderScreen (rerecord (stopRecording (runCapture (startRecording initialState .granted)
        [CapEvent.data [1]]) [2] (.ok "hi") (.ok ⟨["p"], ["f"], none⟩)).1)
      ≠ Screen.idleScreen
    ∧ (rerecord (stopRecording (runCapture (startRecording initialState .granted)
        [CapEvent.data [1]]) [2] (.ok "hi") (.ok ⟨["p"], ["f"], none⟩)).1).analysis
      ≠ none := by
  decide

/-- C5 (amended).  From every state in which the Rerecord control is rendered
(the recording screen: `isRecording && !isRecordingComplete`) — where
`analysis` is still empty, as `startRecording` cleared it — `rerecord`
results in the idle screen with an empty fragment sequence, empty transcript,
empty analysis, the face loop cancelled, all stream tracks stopped and the
recorder stopped.  From other non-`Idle` states (the results screen) the
control is not rendered, and `rerecord` would keep the results screen and the
analysis, as the counterexample shows. -/
theorem C5_rerecord_resets_recording_state (s : SessionState)
    (hctl : recordingControlsShown s = true) (han : s.analysis = none) :
    renderScreen (rerecord s) = Screen.idleScreen
    ∧ (rerecord s).chunks = []
    ∧ (rerecord s).transcript = ""
    ∧ (rerecord s).analysis = none
    ∧ (rerecord s).tracksLive = false
    ∧ (rerecord s).rafActive = false
    ∧ (∀ ph, (rerecord s).recorder = some ph → ph = RecorderPhase.inactive) := by
  have hrc : s.isRecordingComplete = false := by
    unfold recordingControlsShown at hctl
    cases h : s.isRecordingComplete
    · rfl
    · rw [h] at hctl
      simp at hctl
  refine ⟨?_, rfl, rfl, han, rfl, rfl, ?_⟩
  · simp [renderScreen, rerecord, hrc]
  · intro ph hph
    unfold rerecord at hph
    cases hr : s.recorder with
    | none =>
        rw [hr] at hph
        simp at hph
    | some ph0 =>
        rw [hr] at hph
        simp at hph
        exact hph.symm

/-- C5 witness: the amended theorem applied to the concrete recording-screen
state reached by starting a session and capturing one fragment. -/
theorem C5_witness :
    recordingControlsShown (runCapture (startRecording initialState .granted)
        [CapEvent.data [5]]) = true
    ∧ renderScreen (rerecord (runCapture (startRecording initialState .granted)
        [CapEvent.data [5]])) = Screen.idleScreen
    ∧ (rerecord (runCapture (startRecording initialState .granted)
        [CapEvent.data [5]])).analysis = none := by
  have h := C5_rerecord_resets_recording_state
    (runCapture (startRecording initialState .granted) [CapEvent.data [5]])
    (by decide) (by decide)
  exact ⟨by decide, h.1, h.2.2.2.1⟩

/-- C6.  The summarization call is issued only when the transcription call
resolved successfully, and then with exactly the transcript it returned
(first conjunct).  At the moment the call is issued (the state after
`stopPhaseB`, before the summarization outcome is consulted) the transcript is
already set, `loading` is cleared and the results screen shows it, and the
resolution of the summarization call leaves the transcript unchanged — so the
transcript is displayed before summarization resolves and summarization never
blocks its display. -/
theorem C6_summarize_strictly_after_transcript (s : SessionState) (f : Frag)
    (tr : FetchResult String) (sm : FetchResult AnalysisResponse) (t : String) :
    (Ev.callSummarize t ∈ (stopRecording s f tr sm).2 → tr = FetchResult.ok t)
    ∧ (tr = FetchResult.ok t →
        (stopPhaseB (stopPhaseA s f).1 tr).1.transcript = t
        ∧ (stopPhaseB (stopPhaseA s f).1 tr).1.loading = false
        ∧ renderScreen (stopPhaseB (stopPhaseA s f).1 tr).1 = Screen.completeScreen
        ∧ (t ≠ "" → transcriptPanel (stopPhaseB (stopPhaseA s f).1 tr).1
            = TranscriptPanel.text t)
        ∧ beforeIn (stopRecording s f tr sm).2 (Ev.setTranscript t) (Ev.callSummarize t)
        ∧ (stopRecording s f tr sm).1.transcript = t) := by
  constructor
  · intro hmem
    cases tr with
    | ok t0 =>
        have hA := (stopPhaseA_shape s f).2.2.2.2.2.1 t
        cases sm with
        | ok a =>
            unfold stopRecording at hmem
            simp [stopPhaseB, stopPhaseC, hA] at hmem
            rw [hmem]
        | err =>
            unfold stopRecording at hmem
            simp [stopPhaseB, stopPhaseC, hA] at hmem
            rw [hmem]
    | err =>
        have hA := (stopPhaseA_shape s f).2.2.2.2.2.1 t
        unfold stopRecording at hmem
        simp [stopPhaseB, stopPhaseC, hA] at hmem
  · intro htr
    subst htr
    refine ⟨?_, ?_, ?_, ?_, ?_, ?_⟩
    · simp [stopPhaseB]
    · simp [stopPhaseB]
    · simp [stopPhaseB, renderScreen, (stopPhaseA_shape s f).1]
    · intro hne
      simp [stopPhaseB, transcriptPanel, hne]
    · have htrace : (stopRecording s f (FetchResult.ok t) sm).2
          = (stopPhaseA s f).2 ++ (Ev.setTranscript t :: Ev.callSummarize t ::
              (stopPhaseC (stopPhaseB (stopPhaseA s f).1 (FetchResult.ok t)).1
                (FetchResult.ok t) sm).2) := by
        unfold stopRecording
        simp [stopPhaseB]
      rw [htrace]
      exact beforeIn_append_cons_cons _ _ _ _
    · cases sm with
      | ok a => simp [stopRecording, stopPhaseB, stopPhaseC]
      | err => simp [stopRecording, stopPhaseB, stopPhaseC]

/-- C6 witness: the theorem applied to a concrete session whose transcription
resolves with "hello". -/
theorem C6_witness :
    (stopPhaseB (stopPhaseA initialState [1]).1 (FetchResult.ok "hello")).1.transcript = "hello"
    ∧ beforeIn (stopRecording initialState [1] (FetchResult.ok "hello") .err).2
        (Ev.setTranscript "hello") (Ev.callSummarize "hello")
    ∧ (stopRecording initialState [1] (FetchResult.ok "hello") .err).1.transcript = "hello" := by
  have h := (C6_summarize_strictly_after_transcript initialState [1]
    (FetchResult.ok "hello") .err "hello").2 rfl
  exact ⟨h.1, h.2.2.2.2.1, h.2.2.2.2.2⟩

/-! Helper lemmas about the face-status reducer. -/

theorem clamp01_nonneg (x : ℚ) : 0 ≤ clamp x 0 1 :=
  le_max_left 0 (min 1 x)

theorem clamp01_le_one (x : ℚ) : clamp x 0 1 ≤ 1 :=
  max_le zero_le_one (min_le_left 1 x)

theorem emotionScores_bounded (b : String → Option ℚ) :
    ∀ p ∈ emotionScores b, 0 ≤ p.2 ∧ p.2 ≤ 1 := by
  intro p hp
  unfold emotionScores at hp
  simp only [List.mem_cons, List.not_mem_nil, or_false] at hp
  rcases hp with rfl | rfl | rfl | rfl | rfl | rfl | rfl | rfl <;>
    exact ⟨clamp01_nonneg _, clamp01_le_one _⟩

theorem emotionScores_length (b : String → Option ℚ) :
    (emotionScores b).length = 8 := by
  rfl

theorem round2_unit (x : ℚ) (h0 : 0 ≤ x) (h1 : x ≤ 1) :
    0 ≤ round2 x ∧ round2 x ≤ 1 := by
  unfold round2
  constructor
  · apply div_nonneg _ (by norm_num)
    have h : (0 : ℤ) ≤ round (x * 100) := by
      rw [round_eq]
      rw [Int.le_floor]
      push_cast
      nlinarith
    exact_mod_cast h
  · rw [div_le_one (by norm_num)]
    have h : round (x * 100) ≤ 100 := by
      rw [round_eq]
      have hle : (↑⌊x * 100 + 1 / 2⌋ : ℚ) ≤ x * 100 + 1 / 2 := Int.floor_le _
      have hlt : (↑⌊x * 100 + 1 / 2⌋ : ℚ) < 101 := by nlinarith
      have : ⌊x * 100 + 1 / 2⌋ < 101 := by exact_mod_cast hlt
      omega
    exact_mod_cast h

theorem openness_unit (hyp : ℚ → ℚ → ℚ) (pts : List Point)
    (top bot left right : ℕ) :
    0 ≤ openness hyp pts top bot left right
    ∧ openness hyp pts top bot left right ≤ 1 := by
  exact ⟨clamp01_nonneg _, clamp01_le_one _⟩

theorem eyeOpenFromLandmarks_unit (hyp : ℚ → ℚ → ℚ) (res : Option FaceResult) :
    (0 ≤ (eyeOpenFromLandmarks hyp res).1 ∧ (eyeOpenFromLandmarks hyp res).1 ≤ 1)
    ∧ (0 ≤ (eyeOpenFromLandmarks hyp res).2 ∧ (eyeOpenFromLandmarks hyp res).2 ≤ 1) := by
  unfold eyeOpenFromLandmarks
  cases h : res.bind fun r => r.faceLandmarks.head? with
  | none => simp
  | some pts =>
      simp only
      exact ⟨openness_unit hyp pts 159 145 33 133, openness_unit hyp pts 386 374 362 263⟩

/-- C7.  Every numeric output of the per-frame face-status reducer lies in
`[0,1]`, for every blend-shape mapping (including missing keys and extreme
values), every landmark configuration, and every interpretation of the
external `Math.hypot`: the eight emotion scores, the confidence of the built
sample, and both (rounded) eye-openness ratios.  In addition, whenever the
distance function is nonnegative (as `Math.hypot` is), the `+ 1e-6` guard
makes the eye-width denominator strictly positive, so the `dy/w` division
never divides by zero. -/
theorem C7_face_reducer_outputs_unit_interval (b : String → Option ℚ)
    (hyp : ℚ → ℚ → ℚ) (res : Option FaceResult) :
    (∀ p ∈ emotionScores b, 0 ≤ p.2 ∧ p.2 ≤ 1)
    ∧ (0 ≤ (frameFaceStatus res hyp).confidence
        ∧ (frameFaceStatus res hyp).confidence ≤ 1)
    ∧ (0 ≤ (frameFaceStatus res hyp).leftOpen
        ∧ (frameFaceStatus res hyp).leftOpen ≤ 1)
    ∧ (0 ≤ (frameFaceStatus res hyp).rightOpen
        ∧ (frameFaceStatus res hyp).rightOpen ≤ 1)
    ∧ ((∀ a c, 0 ≤ hyp a c) → ∀ p q : Point, 0 < dist2D hyp p q + 1 / 1000000) := by
  refine ⟨emotionScores_bounded b, ?_, ?_, ?_, ?_⟩
  · unfold frameFaceStatus
    cases h : res.bind fun r => r.faceBlendshapes.head? with
    | none => simp [blankFaceStatus]
    | some cats =>
        simp only
        cases hh : (((emotionScores (toBlendshapeMap cats)).mergeSort
            fun p q => decide (q.2 ≤ p.2)).take 3).head? with
        | none => simp [hh]
        | some p =>
            have hp1 : p ∈ ((emotionScores (toBlendshapeMap cats)).mergeSort
                fun p q => decide (q.2 ≤ p.2)).take 3 := by
              cases hl : ((emotionScores (toBlendshapeMap cats)).mergeSort
                  fun p q => decide (q.2 ≤ p.2)).take 3 with
              | nil => rw [hl] at hh; simp at hh
              | cons a tl =>
                  rw [hl] at hh
                  simp at hh
                  rw [hh]
                  exact List.mem_cons_self p tl
            have hp2 : p ∈ (emotionScores (toBlendshapeMap cats)).mergeSort
                fun p q => decide (q.2 ≤ p.2) := List.take_subset 3 _ hp1
            have hp3 : p ∈ emotionScores (toBlendshapeMap cats) :=
              (List.mergeSort_perm _ _).mem_iff.mp hp2
            have hb := emotionScores_bounded (toBlendshapeMap cats) p hp3
            simp [hh]
            exact hb
  · unfold frameFaceStatus
    cases h : res.bind fun r => r.faceBlendshapes.head? with
    | none => simp [blankFaceStatus]
    | some cats =>
        simp only
        exact round2_unit _ (eyeOpenFromLandmarks_unit hyp res).1.1
          (eyeOpenFromLandmarks_unit hyp res).1.2
  · unfold frameFaceStatus
    cases h : res.bind fun r => r.faceBlendshapes.head? with
    | none => simp [blankFaceStatus]
    | some cats =>
        simp only
        exact round2_unit _ (eyeOpenFromLandmarks_unit hyp res).2.1
          (eyeOpenFromLandmarks_unit hyp res).2.2
  · intro hnn p q
    have := hnn (p.x - q.x) (p.y - q.y)
    unfold dist2D
    linarith

/-- C7 witness: the bounds at a concrete adversarial input (every queried
blend-shape score equal to 1) and the guard positivity for a concrete
nonnegative distance function. -/
theorem C7_witness :
    (∀ p ∈ emotionScores (fun _ => some 1), 0 ≤ p.2 ∧ p.2 ≤ 1)
    ∧ 0 < dist2D (fun a c => |a| + |c|) ⟨0, 0⟩ ⟨0, 0⟩ + 1 / 1000000 := by
  have h := C7_face_reducer_outputs_unit_interval (fun _ => some 1)
    (fun a c => |a| + |c|) none
  exact ⟨h.1, h.2.2.2.2 (fun a c => by positivity) ⟨0, 0⟩ ⟨0, 0⟩⟩

theorem sortedScores_pairwise (sc : List (String × ℚ)) :
    List.Pairwise (fun p q => q.2 ≤ p.2)
      (sc.mergeSort fun p q => decide (q.2 ≤ p.2)) := by
  have h := @List.sorted_mergeSort (String × ℚ) (fun p q => decide (q.2 ≤ p.2))
    (fun a b c hab hbc => by
      simp only [decide_eq_true_eq] at hab hbc ⊢
      exact le_trans hbc hab)
    (fun a b => by
      rcases le_total a.2 b.2 with h | h <;> simp [h])
    sc
  exact h.imp fun hab => of_decide_eq_true hab

/-- C8.  For every frame that carries blend-shapes, the top-3 list of the
face-status sample has at most three entries, is sorted in descending score order, its
entries are computed emotion scores, every score dropped by the `slice(0,3)`
is at most every retained one, and the primary emotion label and confidence
are the first (maximal-score) element of the list. -/
theorem C8_top3_sorted_maximal (res : Option FaceResult) (hyp : ℚ → ℚ → ℚ)
    (cats : List (String × ℚ))
    (h : (res.bind fun r => r.faceBlendshapes.head?) = some cats) :
    (frameFaceStatus res hyp).top3.length ≤ 3
    ∧ List.Pairwise (fun p q => q.2 ≤ p.2) (frameFaceStatus res hyp).top3
    ∧ (∀ p ∈ (frameFaceStatus res hyp).top3, p ∈ emotionScores (toBlendshapeMap cats))
    ∧ (∀ q ∈ (((emotionScores (toBlendshapeMap cats)).mergeSort
          fun p q => decide (q.2 ≤ p.2)).drop 3),
        ∀ p ∈ (frameFaceStatus res hyp).top3, q.2 ≤ p.2)
    ∧ (∃ hd, (frameFaceStatus res hyp).top3.head? = some hd
        ∧ (frameFaceStatus res hyp).emotion = hd.1
        ∧ (frameFaceStatus res hyp).confidence = hd.2
        ∧ ∀ q ∈ emotionScores (toBlendshapeMap cats), q.2 ≤ hd.2) := by
  set sc := emotionScores (toBlendshapeMap cats) with hsc
  set srt := sc.mergeSort fun p q => decide (q.2 ≤ p.2) with hsrtdef
  have htop : (frameFaceStatus res hyp).top3 = srt.take 3 := by
    simp [frameFaceStatus, h]
  have hemo : (frameFaceStatus res hyp).emotion
      = ((srt.take 3).head?.map Prod.fst).getD "neutral" := by
    simp [frameFaceStatus, h]
  have hconf : (frameFaceStatus res hyp).confidence
      = ((srt.take 3).head?.map Prod.snd).getD 0 := by
    simp [frameFaceStatus, h]
  have hpw : List.Pairwise (fun p q => q.2 ≤ p.2) srt := sortedScores_pairwise sc
  refine ⟨?_, ?_, ?_, ?_, ?_⟩
  · rw [htop, List.length_take]
    exact min_le_left _ _
  · rw [htop]
    exact List.Pairwise.sublist (List.take_sublist 3 srt) hpw
  · rw [htop]
    intro p hp
    exact (List.mergeSort_perm sc _).mem_iff.mp (List.take_subset 3 srt hp)
  · rw [htop]
    intro q hq p hp
    have hsplit : List.Pairwise (fun p q : String × ℚ => q.2 ≤ p.2)
        (srt.take 3 ++ srt.drop 3) := by
      rw [List.take_append_drop]
      exact hpw
    exact (List.pairwise_append.mp hsplit).2.2 p hp q hq
  · have hlen : srt.length = 8 := by
      rw [hsrtdef, List.length_mergeSort]
      exact emotionScores_length _
    cases hsrt : srt with
    | nil =>
        rw [hsrt] at hlen
        simp at hlen
    | cons a tl =>
        refine ⟨a, ?_, ?_, ?_, ?_⟩
        · rw [htop, hsrt]
          rfl
        · rw [hemo, hsrt]
          rfl
        · rw [hconf, hsrt]
          rfl
        · intro q hq
          have hq2 : q ∈ srt := (List.mergeSort_perm sc _).mem_iff.mpr hq
          rw [hsrt] at hq2
          rcases List.mem_cons.mp hq2 with hqa | hq3
          · rw [hqa]
          · rw [hsrt] at hpw
            exact List.rel_of_pairwise_cons hpw hq3

/-- C8 witness: the theorem applied to a concrete frame whose blend-shape list
is `[("jawOpen", 1)]`. -/
theorem C8_witness :
    (frameFaceStatus (some ⟨[], [[("jawOpen", 1)]]⟩) (fun _ _ => 0)).top3.length ≤ 3
    ∧ List.Pairwise (fun p q => q.2 ≤ p.2)
        (frameFaceStatus (some ⟨[], [[("jawOpen", 1)]]⟩) (fun _ _ => 0)).top3 := by
  have h := C8_top3_sorted_maximal (some ⟨[], [[("jawOpen", 1)]]⟩) (fun _ _ => 0)
    [("jawOpen", 1)] rfl
  exact ⟨h.1, h.2.1⟩

/-- C9.  For every non-empty prompt list of size `K` and every random draw
`r ∈ [0,1)`, the index `Math.floor(r * K)` is a valid position, so
`randomizeQuestion` yields an element of the list; and the draw lands on index
`i` exactly when `r` lies in the subinterval `[i/K, (i+1)/K)` — the `K`
subintervals partition `[0,1)` with equal measure `1/K`, so the draw is
uniform over the `K` prompts, with each call depending only on its own fresh
draw (the current prompt is not an input, so repeats are possible). -/
theorem C9_randomize_uniform_over_prompts (qs : List String) (r : ℚ)
    (hne : qs ≠ []) (h0 : 0 ≤ r) (h1 : r < 1) :
    (⌊r * qs.length⌋).toNat < qs.length
    ∧ randomizeQuestion qs r ∈ qs
    ∧ ∀ i < qs.length, ((⌊r * qs.length⌋).toNat = i
        ↔ (i : ℚ) / qs.length ≤ r ∧ r < ((i : ℚ) + 1) / qs.length) := by
  have hk : 0 < qs.length := List.length_pos.mpr hne
  have hkq : (0 : ℚ) < qs.length := by exact_mod_cast hk
  have hfl0 : 0 ≤ ⌊r * (qs.length : ℚ)⌋ := Int.floor_nonneg.mpr (by positivity)
  have hflk : ⌊r * (qs.length : ℚ)⌋ < (qs.length : ℤ) := by
    apply Int.floor_lt.mpr
    push_cast
    nlinarith
  have hnat : (⌊r * (qs.length : ℚ)⌋).toNat < qs.length := by omega
  refine ⟨hnat, ?_, ?_⟩
  · unfold randomizeQuestion
    rw [List.getD_eq_getElem qs "" hnat]
    exact List.getElem_mem hnat
  · intro i hi
    constructor
    · intro hidx
      have hfleq : ⌊r * (qs.length : ℚ)⌋ = (i : ℤ) := by omega
      have hiff := Int.floor_eq_iff.mp hfleq
      push_cast at hiff
      constructor
      · rw [div_le_iff hkq]
        exact hiff.1
      · rw [lt_div_iff hkq]
        exact hiff.2
    · intro hab
      have ha : (i : ℚ) ≤ r * qs.length := by
        rw [div_le_iff hkq] at hab
        exact hab.1
      have hb : r * (qs.length : ℚ) < (i : ℚ) + 1 := by
        have := hab.2
        rw [lt_div_iff hkq] at this
        exact this
      have hfleq : ⌊r * (qs.length : ℚ)⌋ = (i : ℤ) :=
        Int.floor_eq_iff.mpr ⟨by push_cast; exact ha, by push_cast; exact hb⟩
      omega

/-- C9 witness: the theorem applied to the prompt list `["a","b","c"]` and
the draw `r = 1/2`, which selects the middle prompt. -/
theorem C9_witness :
    (["a", "b", "c"] : List String) ≠ []
    ∧ (0 : ℚ) ≤ 1 / 2
    ∧ (1 : ℚ) / 2 < 1
    ∧ randomizeQuestion ["a", "b", "c"] (1 / 2) ∈ (["a", "b", "c"] : List String) := by
  refine ⟨by decide, by norm_num, by norm_num, ?_⟩
  exact (C9_randomize_uniform_over_prompts ["a", "b", "c"] (1 / 2)
    (by decide) (by norm_num) (by norm_num)).2.1
